import Mathlib

set_option autoImplicit false

namespace AgzD3D12

/-!
Shallow embedding of the d3d12 render-graph per-pass runtime of this
repository, file `src/src/graphics_api/d3d12/graph/passRuntime.cpp`.
That file holds two generations of the component: the `graph`
namespace (`PassRuntime::PassRuntime`, `PassRuntime::execute`) and the
`renderGraph` namespace (`PassContext` accessors, `getRawResource`,
`getDescriptor`).  They are embedded here as the namespaces `Graph`
and `RenderGraph`.  D3D12 resource states, descriptor values and
physical resource handles are opaque to this code and modelled as
naturals; command recorders are identified by a natural and the
commands recorded on them are returned as an explicit list.
-/

/-- Resource state values (`D3D12_RESOURCE_STATES`), opaque to the graph code. -/
abbrev ResState := Nat

/-- Physical native resource handles (`ID3D12Resource*`), opaque to the graph code. -/
abbrev RawResource := Nat

/-- Source struct `StateTransition` with fields `resource`, `subrsc`, `beg`,
`mid`, `end` as read in `PassRuntime::execute`; the logical resource is its
index (identity per the data model).  The source field `end` is a Lean
keyword and is rendered `end_`. -/
structure StateTransition where
  resource : Int
  subrsc : Nat
  beg : ResState
  mid : ResState
  end_ : ResState
deriving DecidableEq

/-- Source call `CD3DX12_RESOURCE_BARRIER::Transition(pResource, before,
after, subresource)`: one native transition-barrier descriptor. -/
structure Barrier where
  pResource : RawResource
  before : ResState
  after : ResState
  subresource : Nat
deriving DecidableEq

/-- One command recorded on a `RawGraphicsCommandList`: either a batched
`ResourceBarrier(count, data)` submission, or any other command recorded by a
pass body, identified by an opaque tag. -/
inductive Command where
  | resourceBarrier (count : Nat) (barriers : List Barrier)
  | custom (tag : Nat)
deriving DecidableEq

/-- True exactly on batched barrier submissions. -/
def isBarrierSubmission : Command → Bool
  | Command.resourceBarrier _ _ => true
  | Command.custom _ => false

/-- Number of batched barrier submissions recorded in a command log. -/
def numBarrierSubmissions (l : List Command) : Nat :=
  (l.filter isBarrierSubmission).length

/-- The sequence of barrier batches in a command log, in recording order. -/
def barrierBatches (l : List Command) : List (List Barrier) :=
  l.filterMap fun c =>
    match c with
    | Command.resourceBarrier _ bs => some bs
    | Command.custom _ => none

namespace Graph

/-- Modelled from the spec: `GraphRuntime::getRawResource`, declared in
`graphRuntime.h`, which is not under `src/`; only its caller
`PassRuntime::execute` is.  Spec section 4.2 and section 6: the runtime
resolves a logical resource index to the physical native handle valid for a
given frame index, resolved fresh per call since the physical instance may
rotate by frame parity, and the resolution must be deterministic per
`(resourceIndex, frameIndex)` pair.  We model it as a pure function of the
resource index and the frame index; the call sites inside `execute` resolve
against the frame currently being executed, so they pass the `frameIndex`
argument of `execute`.  Resolution failure for an unknown index is outside
this model: the indices reaching `execute` were registered at compile time. -/
structure GraphRuntime where
  getRawResource : Int → Int → RawResource

/-- Keys of `PassContext::DescriptorMap`: the `PassRuntime` constructor calls
`p.first->getResource()` on each key, so a key is modelled by the resource
index it yields.  The mapped value is the descriptor slot. -/
structure DescriptorKey where
  resource : Int
deriving DecidableEq

/-- Source type `PassContext::DescriptorMap`, consumed read-only. -/
abbrev DescriptorMap := List (DescriptorKey × Nat)

/-- Source type `PassContext::DescriptorRangeMap`, carried opaquely. -/
abbrev DescriptorRangeMap := List (DescriptorKey × Nat)

/-- The graph-generation `PassContext`, holding exactly the six constructor
arguments passed in `PassRuntime::execute`: runtime, frameIndex, cmdList,
descriptors, descriptorResourcesMap, descriptorRanges.  Its class declaration
is not under `src/`; the trivial accessors below mirror the `renderGraph`
implementations present in the same source file (`getFrameIndex`,
`getCommandList` and `operator->` return the stored members). -/
structure PassContext where
  runtime : GraphRuntime
  frameIndex : Int
  cmdList : Nat
  descriptors : DescriptorMap
  descriptorResourcesMap : List (Int × Nat)
  descriptorRanges : DescriptorRangeMap

/-- Accessor `PassContext::getFrameIndex`. -/
def PassContext.getFrameIndex (c : PassContext) : Int := c.frameIndex

/-- Accessor `PassContext::getCommandList`. -/
def PassContext.getCommandList (c : PassContext) : Nat := c.cmdList

/-- Accessor `PassContext::operator->`, which also yields the recorder. -/
def PassContext.arrow (c : PassContext) : Nat := c.cmdList

/-- Source state of one compiled pass: members of class `PassRuntime`.  The
callback is the type-erased `PassCallback` object; a pass body receives the
context and records commands on the recorder exposed by it, modelled as the
list of commands it records. -/
structure PassRuntime where
  runtime : GraphRuntime
  callback : PassContext → List Command
  transitions : List StateTransition
  descriptors : DescriptorMap
  descriptorResourcesMap : List (Int × Nat)
  descriptorRanges : DescriptorRangeMap
  entryBarriers : List Barrier
  exitBarriers : List Barrier

/-- Source constructor `PassRuntime::PassRuntime`: stores the compiled data
and fills `descriptorResourcesMap_[p.first->getResource()] = p.second` for
each entry of the descriptor map; both scratch barrier lists start empty. -/
def mkPassRuntime (runtime : GraphRuntime) (callback : PassContext → List Command)
    (transitions : List StateTransition) (descriptors : DescriptorMap)
    (descriptorRanges : DescriptorRangeMap) : PassRuntime :=
  { runtime := runtime
    callback := callback
    transitions := transitions
    descriptors := descriptors
    descriptorResourcesMap := descriptors.map fun p => (p.1.resource, p.2)
    descriptorRanges := descriptorRanges
    entryBarriers := []
    exitBarriers := [] }

/-- The barrier-building loop of `PassRuntime::execute` (source lines 31 to
44): walk the stored transitions in order; for each one push an entry barrier
`Transition(raw, beg, mid, subrsc)` when `beg != mid` and an exit barrier
`Transition(raw, mid, end, subrsc)` when `mid != end`, where `raw` is the
runtime resolution of the resource for the executing frame. -/
def barrierLoop (runtime : GraphRuntime) (frameIndex : Int) :
    List StateTransition → List Barrier → List Barrier → List Barrier × List Barrier
  | [], entry, exit => (entry, exit)
  | rt :: rest, entry, exit =>
      let entry' := if rt.beg ≠ rt.mid
        then entry ++ [⟨runtime.getRawResource rt.resource frameIndex, rt.beg, rt.mid, rt.subrsc⟩]
        else entry
      let exit' := if rt.mid ≠ rt.end_
        then exit ++ [⟨runtime.getRawResource rt.resource frameIndex, rt.mid, rt.end_, rt.subrsc⟩]
        else exit
      barrierLoop runtime frameIndex rest entry' exit'

/-- The `PassContext` constructed in `PassRuntime::execute` (source lines 53
to 55): `PassContext(runtime_, frameIndex, cmdList, descriptors_,
descriptorResourcesMap_, descriptorRanges_)`. -/
def PassRuntime.passContextOf (p : PassRuntime) (frameIndex : Int) (cmdList : Nat) :
    PassContext :=
  ⟨p.runtime, frameIndex, cmdList, p.descriptors, p.descriptorResourcesMap,
    p.descriptorRanges⟩

/-- Source member function `PassRuntime::execute(frameIndex, cmdList)`
(lines 24 to 65): clear both scratch barrier lists, repopulate them by the
loop above, submit the entry list as one batched `ResourceBarrier` call when
non-empty, construct a `PassContext` and invoke the callback once with it,
then submit the exit list as one batched call when non-empty.  The result is
the updated object state together with the commands recorded on `cmdList`
during the call, in recording order. -/
def PassRuntime.execute (p : PassRuntime) (frameIndex : Int) (cmdList : Nat) :
    PassRuntime × List Command :=
  let scratch := barrierLoop p.runtime frameIndex p.transitions [] []
  let p' := { p with entryBarriers := scratch.1, exitBarriers := scratch.2 }
  let entryCmds : List Command :=
    if p'.entryBarriers.isEmpty then []
    else [Command.resourceBarrier p'.entryBarriers.length p'.entryBarriers]
  let bodyCmds := p'.callback (p'.passContextOf frameIndex cmdList)
  let exitCmds : List Command :=
    if p'.exitBarriers.isEmpty then []
    else [Command.resourceBarrier p'.exitBarriers.length p'.exitBarriers]
  (p', entryCmds ++ bodyCmds ++ exitCmds)

/-- Entry barrier produced for one transition record. -/
def entryBarrierOf (runtime : GraphRuntime) (frameIndex : Int) (rt : StateTransition) :
    Barrier :=
  ⟨runtime.getRawResource rt.resource frameIndex, rt.beg, rt.mid, rt.subrsc⟩

/-- Exit barrier produced for one transition record. -/
def exitBarrierOf (runtime : GraphRuntime) (frameIndex : Int) (rt : StateTransition) :
    Barrier :=
  ⟨runtime.getRawResource rt.resource frameIndex, rt.mid, rt.end_, rt.subrsc⟩

/-- Statement vocabulary, following the words of the spec: the entry-barrier
list holds exactly one barrier `(before = beg, after = mid)` for each stored
transition whose `beg` differs from `mid`, in order. -/
def entryBarriersSpec (runtime : GraphRuntime) (frameIndex : Int)
    (ts : List StateTransition) : List Barrier :=
  ts.filterMap fun rt =>
    if rt.beg ≠ rt.mid then some (entryBarrierOf runtime frameIndex rt) else none

/-- Statement vocabulary, following the words of the spec: the exit-barrier
list holds exactly one barrier `(before = mid, after = end)` for each stored
transition whose `mid` differs from `end`, in order. -/
def exitBarriersSpec (runtime : GraphRuntime) (frameIndex : Int)
    (ts : List StateTransition) : List Barrier :=
  ts.filterMap fun rt =>
    if rt.mid ≠ rt.end_ then some (exitBarrierOf runtime frameIndex rt) else none

/-- The commands a single execute call records before the pass body: one
batched submission of the whole entry list, or nothing when it is empty. -/
def entrySubmission (runtime : GraphRuntime) (frameIndex : Int)
    (ts : List StateTransition) : List Command :=
  let bs := entryBarriersSpec runtime frameIndex ts
  if bs.isEmpty then [] else [Command.resourceBarrier bs.length bs]

/-- The commands a single execute call records after the pass body: one
batched submission of the whole exit list, or nothing when it is empty. -/
def exitSubmission (runtime : GraphRuntime) (frameIndex : Int)
    (ts : List StateTransition) : List Command :=
  let bs := exitBarriersSpec runtime frameIndex ts
  if bs.isEmpty then [] else [Command.resourceBarrier bs.length bs]

/-- Example resolver for concrete checks: the physical handle rotates with
the frame index. -/
def exRuntime : GraphRuntime := ⟨fun i f => 100 * i.toNat + f.toNat⟩

/-- Example transition records: the first needs only an entry barrier
(`beg = 0`, `mid = end = 2`), the second only an exit barrier (`beg = mid = 3`,
`end = 5`). -/
def exTransitions : List StateTransition := [⟨1, 0, 0, 2, 2⟩, ⟨2, 0, 3, 3, 5⟩]

/-- Example pass body recording one opaque command. -/
def exCallback : PassContext → List Command := fun _ => [Command.custom 9]

/-- Example compiled pass with one declared descriptor. -/
def exPass : PassRuntime := mkPassRuntime exRuntime exCallback exTransitions [(⟨1⟩, 7)] []

end Graph

namespace RenderGraph

/-- Resource as used by the renderGraph `PassContext`: `getIndex()` and
`getName()`; identity is the index, the name is diagnostic. -/
structure Resource where
  index : Int
  name : String
deriving DecidableEq

/-- Descriptor slot record: the source reads `descriptorSlot->descriptor`. -/
structure DescriptorSlot where
  descriptor : Nat
deriving DecidableEq

/-- Source struct `ResourceUsage` as consumed by `getDescriptor`: only its
`descriptorSlot` member is read there. -/
structure ResourceUsage where
  descriptorSlot : DescriptorSlot
deriving DecidableEq

/-- Modelled from the spec: the renderGraph `Runtime` member function
`getRawResource(resourceIndex)`, whose implementation is not under `src/`.
Spec section 4.2: it resolves the physical handle and fails if the resource
index is unknown, hence the `Option` result. -/
structure Runtime where
  getRawResource : Int → Option RawResource

/-- Source class `PassContext` (renderGraph generation): constructed from the
runtime, the frame index, the command list and this pass's usage map
`std::map<int, ResourceUsage>`, modelled as an association list keyed by the
resource index. -/
structure PassContext where
  runtime : Runtime
  frameIndex : Int
  cmdList : Nat
  resources : List (Int × ResourceUsage)

/-- Source accessor `PassContext::getFrameIndex` (returns `frameIndex_`). -/
def PassContext.getFrameIndex (c : PassContext) : Int := c.frameIndex

/-- Source accessor `PassContext::getCommandList` (returns `cmdList_`). -/
def PassContext.getCommandList (c : PassContext) : Nat := c.cmdList

/-- Source accessor `PassContext::operator->` (returns `cmdList_`). -/
def PassContext.arrow (c : PassContext) : Nat := c.cmdList

/-- Source member function `PassContext::getRawResource` (lines 106 to 109):
delegates straight to the runtime by resource index; it performs no
declared-usage check and is `noexcept`. -/
def PassContext.getRawResource (c : PassContext) (r : Resource) : Option RawResource :=
  c.runtime.getRawResource r.index

/-- Source member function `PassContext::getDescriptor` (lines 111 to 120):
looks the resource index up in this pass's usage map; throws a
`D3D12Exception` with message `"undecled resource usage of " + name` when the
index is absent, otherwise returns `it->second.descriptorSlot->descriptor`. -/
def PassContext.getDescriptor (c : PassContext) (r : Resource) : Except String Nat :=
  match c.resources.lookup r.index with
  | none => Except.error ("undecled resource usage of " ++ r.name)
  | some u => Except.ok u.descriptorSlot.descriptor

/-- Example context: resource 4 is declared by the pass with descriptor 7;
resource 5 is known to the runtime but not declared by the pass. -/
def exCtx : PassContext :=
  ⟨⟨fun i => if i = 5 then some 42 else none⟩, 3, 8, [(4, ⟨⟨7⟩⟩)]⟩

end RenderGraph

namespace Graph

theorem barrierLoop_eq (runtime : GraphRuntime) (frameIndex : Int)
    (ts : List StateTransition) :
    ∀ entry exit : List Barrier,
      barrierLoop runtime frameIndex ts entry exit =
        (entry ++ entryBarriersSpec runtime frameIndex ts,
         exit ++ exitBarriersSpec runtime frameIndex ts) := by
  induction ts with
  | nil =>
      intro entry exit
      simp [barrierLoop, entryBarriersSpec, exitBarriersSpec]
  | cons rt rest ih =>
      intro entry exit
      simp only [barrierLoop]
      rw [ih]
      simp only [entryBarriersSpec, exitBarriersSpec, List.filterMap_cons, entryBarrierOf,
        exitBarrierOf]
      split_ifs with h1 h2 <;> simp [List.append_assoc]

theorem execute_state_eq (p : PassRuntime) (frameIndex : Int) (cmdList : Nat) :
    (p.execute frameIndex cmdList).1 =
      { p with entryBarriers := entryBarriersSpec p.runtime frameIndex p.transitions,
               exitBarriers := exitBarriersSpec p.runtime frameIndex p.transitions } := by
  simp [PassRuntime.execute, barrierLoop_eq]

theorem execute_log_eq (p : PassRuntime) (frameIndex : Int) (cmdList : Nat) :
    (p.execute frameIndex cmdList).2 =
      entrySubmission p.runtime frameIndex p.transitions ++
      p.callback (p.passContextOf frameIndex cmdList) ++
      exitSubmission p.runtime frameIndex p.transitions := by
  simp only [PassRuntime.execute, barrierLoop_eq, List.nil_append]
  rfl

theorem numBarrierSubmissions_append (l₁ l₂ : List Command) :
    numBarrierSubmissions (l₁ ++ l₂) =
      numBarrierSubmissions l₁ + numBarrierSubmissions l₂ := by
  simp [numBarrierSubmissions, List.filter_append]

theorem numBarrierSubmissions_entrySubmission (runtime : GraphRuntime)
    (frameIndex : Int) (ts : List StateTransition) :
    numBarrierSubmissions (entrySubmission runtime frameIndex ts) ≤ 1 := by
  unfold entrySubmission
  dsimp only
  split_ifs <;> simp [numBarrierSubmissions, isBarrierSubmission]

theorem numBarrierSubmissions_exitSubmission (runtime : GraphRuntime)
    (frameIndex : Int) (ts : List StateTransition) :
    numBarrierSubmissions (exitSubmission runtime frameIndex ts) ≤ 1 := by
  unfold exitSubmission
  dsimp only
  split_ifs <;> simp [numBarrierSubmissions, isBarrierSubmission]

/-- C1: every `PassRuntime::execute(frameIndex, cmdList)` call populates the
entry-barrier scratch list with exactly one transition barrier
(before = beg, after = mid) for each stored `StateTransition` whose `beg`
differs from `mid`, and the exit-barrier scratch list with exactly one
barrier (before = mid, after = end) for each stored `StateTransition` whose
`mid` differs from `end`; a transition with `beg = mid` contributes no entry
barrier and one with `mid = end` contributes no exit barrier.  Stated with
`List.filterMap`, which keeps exactly one image per selected record in
order. -/
theorem execute_populates_barrier_lists (p : PassRuntime) (f : Int) (c : Nat) :
    (p.execute f c).1.entryBarriers =
      p.transitions.filterMap (fun rt =>
        if rt.beg ≠ rt.mid then some (entryBarrierOf p.runtime f rt) else none) ∧
    (p.execute f c).1.exitBarriers =
      p.transitions.filterMap (fun rt =>
        if rt.mid ≠ rt.end_ then some (exitBarrierOf p.runtime f rt) else none) := by
  rw [execute_state_eq]
  exact ⟨rfl, rfl⟩

/-- C2: every `PassRuntime::execute` call invokes the pass body callback
exactly once, with a `PassContext` built from this pass's declared
descriptor/resource maps (and the runtime, frame index and recorder of the
call), strictly after the entry-barrier submission, if any, and strictly
before the exit-barrier submission, if any: the recorded log is exactly the
entry submission, then the single body invocation, then the exit
submission. -/
theorem execute_invokes_body_once (p : PassRuntime) (f : Int) (c : Nat) :
    p.passContextOf f c =
      ⟨p.runtime, f, c, p.descriptors, p.descriptorResourcesMap, p.descriptorRanges⟩ ∧
    (p.execute f c).2 =
      entrySubmission p.runtime f p.transitions ++
      p.callback (p.passContextOf f c) ++
      exitSubmission p.runtime f p.transitions :=
  ⟨rfl, execute_log_eq p f c⟩

/-- C3: a non-empty entry-barrier list is submitted as one single batched
barrier command containing all its entries, a non-empty exit-barrier list as
one second single batched command, and an empty list produces no submission;
hence each execute call performs at most two barrier submissions beyond those
recorded by the pass body, regardless of the number of transitions. -/
theorem execute_batches_barriers (p : PassRuntime) (f : Int) (c : Nat) :
    (p.execute f c).2 =
      entrySubmission p.runtime f p.transitions ++
      p.callback (p.passContextOf f c) ++
      exitSubmission p.runtime f p.transitions ∧
    entrySubmission p.runtime f p.transitions =
      (if entryBarriersSpec p.runtime f p.transitions = [] then []
       else [Command.resourceBarrier (entryBarriersSpec p.runtime f p.transitions).length
               (entryBarriersSpec p.runtime f p.transitions)]) ∧
    exitSubmission p.runtime f p.transitions =
      (if exitBarriersSpec p.runtime f p.transitions = [] then []
       else [Command.resourceBarrier (exitBarriersSpec p.runtime f p.transitions).length
               (exitBarriersSpec p.runtime f p.transitions)]) ∧
    numBarrierSubmissions (p.execute f c).2 ≤
      numBarrierSubmissions (p.callback (p.passContextOf f c)) + 2 := by
  refine ⟨execute_log_eq p f c, ?_, ?_, ?_⟩
  · unfold entrySubmission
    dsimp only
    split_ifs with h <;> simp_all
  · unfold exitSubmission
    dsimp only
    split_ifs with h <;> simp_all
  · rw [execute_log_eq, numBarrierSubmissions_append, numBarrierSubmissions_append]
    have h1 := numBarrierSubmissions_entrySubmission p.runtime f p.transitions
    have h2 := numBarrierSubmissions_exitSubmission p.runtime f p.transitions
    omega

/-- C6: when `execute(frameIndex, cmdList)` populates the entry and exit
barrier lists, each stored transition record is resolved to the physical
handle the runtime assigns to its resource index for that very `frameIndex`:
a barrier is in the entry (resp. exit) list exactly when it arises from a
stored record with `beg` distinct from `mid` (resp. `mid` distinct from
`end`) with its resource resolved at the frame of the call, so the submitted
barriers may differ between frame indices when the resolution rotates. -/
theorem execute_resolves_frame_specific (p : PassRuntime) (f : Int) (c : Nat)
    (b : Barrier) :
    (b ∈ (p.execute f c).1.entryBarriers ↔
      ∃ rt, rt ∈ p.transitions ∧ rt.beg ≠ rt.mid ∧
        b = ⟨p.runtime.getRawResource rt.resource f, rt.beg, rt.mid, rt.subrsc⟩) ∧
    (b ∈ (p.execute f c).1.exitBarriers ↔
      ∃ rt, rt ∈ p.transitions ∧ rt.mid ≠ rt.end_ ∧
        b = ⟨p.runtime.getRawResource rt.resource f, rt.mid, rt.end_, rt.subrsc⟩) := by
  rw [execute_state_eq]
  constructor <;>
    simp [entryBarriersSpec, exitBarriersSpec, List.mem_filterMap, entryBarrierOf,
      exitBarrierOf, Option.ite_none_right_eq_some, eq_comm, and_assoc]

/-- C7: executing the same compiled pass twice with identical `frameIndex`,
an unchanged graph and the (deterministic, pure) resolution function,
produces byte-identical logs and in particular byte-identical barrier batch
sequences on the two command recorders, provided the pass body records the
same commands for the two per-run contexts (which differ only in the recorder
handed to them).  The second run starts from the object state left by the
first run, so the scratch lists it begins with are the dirty ones. -/
theorem execute_two_run_determinism (p : PassRuntime) (f : Int) (c₁ c₂ : Nat)
    (hbody : p.callback (p.passContextOf f c₁) = p.callback (p.passContextOf f c₂)) :
    ((p.execute f c₁).1.execute f c₂).2 = (p.execute f c₁).2 ∧
    barrierBatches ((p.execute f c₁).1.execute f c₂).2 =
      barrierBatches (p.execute f c₁).2 := by
  have hctx : ((p.execute f c₁).1).passContextOf f c₂ = p.passContextOf f c₂ := by
    rw [execute_state_eq]
    rfl
  have hcb : ((p.execute f c₁).1).callback = p.callback := by
    rw [execute_state_eq]
  have hrt : ((p.execute f c₁).1).runtime = p.runtime := by
    rw [execute_state_eq]
  have htr : ((p.execute f c₁).1).transitions = p.transitions := by
    rw [execute_state_eq]
  have key : ((p.execute f c₁).1.execute f c₂).2 = (p.execute f c₁).2 := by
    rw [execute_log_eq, execute_log_eq, hctx, hcb, hrt, htr, ← hbody]
  exact ⟨key, by rw [key]⟩

/-- C8: every `execute` call leaves the compiled state (runtime pointer,
callback, transitions list, descriptor maps) unchanged; the only per-instance
state it mutates is the two scratch barrier lists, and those are overwritten
at the start of every call, so an execute starting from arbitrary previous
scratch contents produces exactly the same result as one starting from the
pristine object. -/
theorem execute_preserves_compiled_state (p : PassRuntime) (f : Int) (c : Nat)
    (e x : List Barrier) :
    (p.execute f c).1.runtime = p.runtime ∧
    (p.execute f c).1.callback = p.callback ∧
    (p.execute f c).1.transitions = p.transitions ∧
    (p.execute f c).1.descriptors = p.descriptors ∧
    (p.execute f c).1.descriptorResourcesMap = p.descriptorResourcesMap ∧
    (p.execute f c).1.descriptorRanges = p.descriptorRanges ∧
    ({ p with entryBarriers := e, exitBarriers := x } : PassRuntime).execute f c =
      p.execute f c :=
  ⟨rfl, rfl, rfl, rfl, rfl, rfl, rfl⟩

/-- C9: a pass that declares a usage with a descriptor requirement executes
successfully even when the pass body never reads a descriptor: with a body
whose recorded commands do not depend on the context, the call completes with
the normal log, and the log is the same as for the identical pass with no
descriptor declarations at all, so no error arises from unconsumed
declarations. -/
theorem execute_unconsumed_declaration_ok (p : PassRuntime) (f : Int) (c : Nat)
    (cmds : List Command)
    (_hdecl : p.descriptors ≠ [])
    (hbody : ∀ ctx : PassContext, p.callback ctx = cmds) :
    (p.execute f c).2 =
      entrySubmission p.runtime f p.transitions ++ cmds ++
      exitSubmission p.runtime f p.transitions ∧
    (({ p with
        descriptors := []
        descriptorResourcesMap := []
        descriptorRanges := [] } : PassRuntime).execute f c).2 = (p.execute f c).2 := by
  constructor
  · rw [execute_log_eq, hbody]
  · rw [execute_log_eq, execute_log_eq]
    simp [hbody]

/-- C10: the `PassContext` handed to the pass body by
`execute(frameIndex, cmdList)` reports `getFrameIndex()` equal to the
`frameIndex` argument of that call, and `getCommandList()` and `operator->`
both return exactly the `cmdList` recorder of that call; the accessors of the
`renderGraph`-generation `PassContext` in the same source file return the
stored members the same way. -/
theorem passContext_reflects_execute_arguments (p : PassRuntime) (f : Int) (c : Nat) :
    (p.passContextOf f c).getFrameIndex = f ∧
    (p.passContextOf f c).getCommandList = c ∧
    (p.passContextOf f c).arrow = c ∧
    (p.execute f c).2 =
      entrySubmission p.runtime f p.transitions ++
      p.callback (p.passContextOf f c) ++
      exitSubmission p.runtime f p.transitions ∧
    ∀ ctx : RenderGraph.PassContext,
      ctx.getFrameIndex = ctx.frameIndex ∧ ctx.getCommandList = ctx.cmdList ∧
        ctx.arrow = ctx.cmdList :=
  ⟨rfl, rfl, rfl, execute_log_eq p f c, fun _ => ⟨rfl, rfl, rfl⟩⟩

/-- Witness for C7: a concrete pass executed at frame 0 on recorder 1 and
then again, from the resulting state, on recorder 2. -/
theorem execute_two_run_determinism_witness :
    ((exPass.execute 0 1).1.execute 0 2).2 = (exPass.execute 0 1).2 ∧
    barrierBatches ((exPass.execute 0 1).1.execute 0 2).2 =
      barrierBatches (exPass.execute 0 1).2 :=
  execute_two_run_determinism exPass 0 1 2 rfl

/-- Witness for C9: the concrete pass declares a descriptor, its body records
one opaque command and never reads a descriptor, and execution completes with
the normal log. -/
theorem execute_unconsumed_declaration_ok_witness :
    exPass.descriptors ≠ [] ∧
    ((exPass.execute 0 0).2 =
      entrySubmission exPass.runtime 0 exPass.transitions ++ [Command.custom 9] ++
      exitSubmission exPass.runtime 0 exPass.transitions ∧
    (({ exPass with
        descriptors := []
        descriptorResourcesMap := []
        descriptorRanges := [] } : PassRuntime).execute 0 0).2 =
      (exPass.execute 0 0).2) :=
  ⟨by decide,
    execute_unconsumed_declaration_ok exPass 0 0 [Command.custom 9] (by decide)
      (fun _ => rfl)⟩

end Graph

namespace RenderGraph

/-- C4: `PassContext::getDescriptor(resource)` fails with the
undeclared-resource-usage condition (an explicit `D3D12Exception`, modelled
as an `Except.error` carrying the source message) whenever the resource index
is not registered in this pass's usage map, and for every declared resource
it returns the descriptor slot stored for it at declaration time. -/
theorem getDescriptor_capability (ctx : PassContext) (r : Resource) :
    (ctx.resources.lookup r.index = none →
      ctx.getDescriptor r = Except.error ("undecled resource usage of " ++ r.name)) ∧
    (∀ u : ResourceUsage, ctx.resources.lookup r.index = some u →
      ctx.getDescriptor r = Except.ok u.descriptorSlot.descriptor) := by
  constructor
  · intro h
    simp [PassContext.getDescriptor, h]
  · intro u h
    simp [PassContext.getDescriptor, h]

/-- Witness for C4: in the concrete context, resource 5 is undeclared and the
lookup fails with the undeclared-usage message, while declared resource 4
yields its descriptor 7. -/
theorem getDescriptor_capability_witness :
    exCtx.getDescriptor ⟨5, "tex"⟩ =
      Except.error ("undecled resource usage of " ++ "tex") ∧
    exCtx.getDescriptor ⟨4, "buf"⟩ = Except.ok 7 :=
  ⟨(getDescriptor_capability exCtx ⟨5, "tex"⟩).1 rfl,
    (getDescriptor_capability exCtx ⟨4, "buf"⟩).2 ⟨⟨7⟩⟩ rfl⟩

/-- Counterexample to C5 as stated: in the concrete context the pass declares
nothing (`resources` is the empty map), yet `getRawResource` on resource 5
does not fail with the undeclared-usage condition: it succeeds with the
runtime resolution 42, because the source function delegates to the runtime
without consulting the usage map. -/
theorem getRawResource_undeclared_succeeds :
    (exCtx.resources.lookup (5 : Int) = none) ∧
    exCtx.getRawResource ⟨5, "tex"⟩ = some 42 :=
  ⟨rfl, rfl⟩

/-- C5 amended: `PassContext::getRawResource(resource)` performs no
declared-usage check at all: it returns exactly the runtime resolution of the
resource index, unchanged under any modification of the pass's declared usage
map, so an undeclared resource is resolved like a declared one and no
undeclared-usage failure can arise from this function. -/
theorem getRawResource_no_usage_check (ctx : PassContext) (r : Resource)
    (rs : List (Int × ResourceUsage)) :
    ctx.getRawResource r = ctx.runtime.getRawResource r.index ∧
    ({ ctx with resources := rs } : PassContext).getRawResource r =
      ctx.getRawResource r :=
  ⟨rfl, rfl⟩

end RenderGraph

end AgzD3D12
